import Mathlib

/-!
# Verification of the fastidious-mcp server

A shallow embedding of the fastidious-mcp repository (an MCP server exposing a
notes/collections HTTP API as callable tools) together with proofs of the
behavioural properties stated in its specification.

The embedding covers:
* a model of JavaScript runtime values (`JSValue`) with JS truthiness,
  string coercion, and the observable effect of `JSON.stringify`;
* the remote API client `fetchAPI` from `src/tools.ts`;
* the tool dispatcher `handleToolCall` from `src/tools.ts`, one Lean
  definition per `case` of the `switch`, with the remote service modelled as
  an oracle `RemoteCall → HttpResponse` and the outbound calls recorded as a
  trace;
* the MCP server request handler wrapper from `createMCPServer`;
* the HTTP transport layer of the hosted server (`/sse` POST and GET,
  `/message`) as explicit state transitions over the two session tables.
-/

/-! ## JavaScript runtime values -/

/-- A JavaScript runtime value, as far as this program observes them:
`undefined`, `null`, booleans, numbers, strings, arrays and plain objects.
Objects are modelled as association lists; JS objects have unique keys, so
lookups use the first match. -/
inductive JSValue where
  | undefined : JSValue
  | null : JSValue
  | bool : Bool → JSValue
  | num : Int → JSValue
  | str : String → JSValue
  | arr : List JSValue → JSValue
  | obj : List (String × JSValue) → JSValue

/-- A JS object: the shape of MCP `arguments` records and JSON bodies. -/
abbrev JSObj := List (String × JSValue)

/-- JavaScript truthiness of a value (`if (v)`, `v || w`). -/
def JSValue.truthy : JSValue → Bool
  | .undefined => false
  | .null => false
  | .bool b => b
  | .num n => n != 0
  | .str s => s != ""
  | .arr _ => true
  | .obj _ => true

/-- JS `a || b`: `a` when truthy, otherwise `b`. -/
def jsOr (a b : JSValue) : JSValue :=
  if a.truthy then a else b

/-- Field lookup on a JS object: `undefined` when the key is absent.
Models ES destructuring of a missing property. -/
def getField (fs : JSObj) (k : String) : JSValue :=
  match fs.find? (fun p => p.1 == k) with
  | some p => p.2
  | none => .undefined

/-- Property access `v.k` on an arbitrary value: field lookup on objects,
`undefined` otherwise. -/
def getProp (v : JSValue) (k : String) : JSValue :=
  match v with
  | .obj fs => getField fs k
  | _ => .undefined

/-- Optional field lookup on an association list, used in theorem statements
to talk about the keys present in a serialized body. -/
def objGet (fs : JSObj) (k : String) : Option JSValue :=
  (fs.find? (fun p => p.1 == k)).map (fun p => p.2)

/-- JS strict equality `v === "<literal>"` against a string literal: true
exactly when `v` is a string with that value (objects and arrays are never
strictly equal to a string). -/
def jsStrictEqStr (v : JSValue) (s : String) : Bool :=
  match v with
  | .str t => t == s
  | _ => false

/-- The array payload of a value, when it is an array.  Used where the code
calls `.filter` on a field cast to an array: a non-array would raise a
`TypeError` at run time, which the handler surfaces as a failure. -/
def jsArrayOf : JSValue → Option (List JSValue)
  | .arr xs => some xs
  | _ => none

mutual

/-- The JSON document actually serialized by `JSON.stringify v`: `none` when
`v` is `undefined` (stringify returns undefined, no text); object fields
whose value serializes to nothing are dropped; array holes serialize as
`null`. -/
def jsonNormalize : JSValue → Option JSValue
  | .undefined => none
  | .null => some .null
  | .bool b => some (.bool b)
  | .num n => some (.num n)
  | .str s => some (.str s)
  | .arr xs => some (.arr (jsonNormalizeArr xs))
  | .obj fs => some (.obj (jsonNormalizeObj fs))

/-- Elementwise `JSON.stringify` normalization of an array body. -/
def jsonNormalizeArr : List JSValue → List JSValue
  | [] => []
  | x :: xs =>
    (match jsonNormalize x with
     | some w => w
     | none => .null) :: jsonNormalizeArr xs

/-- Fieldwise `JSON.stringify` normalization of an object body: fields whose
value is dropped by stringify (i.e. `undefined`) disappear. -/
def jsonNormalizeObj : JSObj → JSObj
  | [] => []
  | (k, v) :: fs =>
    match jsonNormalize v with
    | some w => (k, w) :: jsonNormalizeObj fs
    | none => jsonNormalizeObj fs

end

mutual

/-- Whether a value is a pure JSON value (no `undefined` anywhere): the case
for every argument object parsed from a JSON protocol message. -/
def JSValue.isJson : JSValue → Bool
  | .undefined => false
  | .null => true
  | .bool _ => true
  | .num _ => true
  | .str _ => true
  | .arr xs => jsListIsJson xs
  | .obj fs => jsFieldsIsJson fs

/-- All elements of a list are pure JSON values. -/
def jsListIsJson : List JSValue → Bool
  | [] => true
  | x :: xs => x.isJson && jsListIsJson xs

/-- All field values of an object are pure JSON values. -/
def jsFieldsIsJson : JSObj → Bool
  | [] => true
  | (_, v) :: fs => v.isJson && jsFieldsIsJson fs

end

mutual

/-- JS string coercion `String(v)` / template-literal interpolation. -/
def jsToString : JSValue → String
  | .undefined => "undefined"
  | .null => "null"
  | .bool b => if b then "true" else "false"
  | .num n => toString n
  | .str s => s
  | .arr xs => jsArrToString xs
  | .obj _ => "[object Object]"

/-- `Array.prototype.toString`: elements joined by commas, with `null` and
`undefined` elements rendered as the empty string. -/
def jsArrToString : List JSValue → String
  | [] => ""
  | x :: xs =>
    (match x with
     | .undefined => ""
     | .null => ""
     | v => jsToString v)
    ++ (match xs with
        | [] => ""
        | _ => ",")
    ++ jsArrToString xs

end

/-! ### Stringify of pure JSON values is the identity -/

mutual

theorem jsonNormalize_isJson (v : JSValue) (h : v.isJson = true) :
    jsonNormalize v = some v := by
  cases v with
  | undefined => simp [JSValue.isJson] at h
  | null => rfl
  | bool b => rfl
  | num n => rfl
  | str s => rfl
  | arr xs =>
    simp only [JSValue.isJson] at h
    simp [jsonNormalize, jsonNormalizeArr_isJson xs h]
  | obj fs =>
    simp only [JSValue.isJson] at h
    simp [jsonNormalize, jsonNormalizeObj_isJson fs h]

theorem jsonNormalizeArr_isJson (xs : List JSValue) (h : jsListIsJson xs = true) :
    jsonNormalizeArr xs = xs := by
  cases xs with
  | nil => rfl
  | cons x xs =>
    simp only [jsListIsJson, Bool.and_eq_true] at h
    simp [jsonNormalizeArr, jsonNormalize_isJson x h.1, jsonNormalizeArr_isJson xs h.2]

theorem jsonNormalizeObj_isJson (fs : JSObj) (h : jsFieldsIsJson fs = true) :
    jsonNormalizeObj fs = fs := by
  cases fs with
  | nil => rfl
  | cons p fs =>
    obtain ⟨k, v⟩ := p
    simp only [jsFieldsIsJson, Bool.and_eq_true] at h
    simp [jsonNormalizeObj, jsonNormalize_isJson v h.1, jsonNormalizeObj_isJson fs h.2]

end

/-! ## URL query-string serialization (`URLSearchParams`) -/

/-- Uppercase hexadecimal digit. -/
def hexChar (n : Nat) : Char :=
  if n < 10 then Char.ofNat (48 + n) else Char.ofNat (55 + n)

/-- Characters kept verbatim by the `application/x-www-form-urlencoded`
serializer used by `URLSearchParams.toString`. -/
def isFormSafe (c : Char) : Bool :=
  c.isAlphanum || c == '-' || c == '_' || c == '.' || c == '*'

/-- Percent-encoding of one byte. -/
def encodeFormByte (b : UInt8) : String :=
  let n := b.toNat
  String.mk ['%', hexChar (n / 16), hexChar (n % 16)]

/-- `application/x-www-form-urlencoded` encoding of one component: safe
characters kept, space becomes `+`, everything else percent-encoded bytewise
over its UTF-8 encoding. -/
def encodeFormComponent (s : String) : String :=
  s.foldl
    (fun acc c =>
      if isFormSafe c then acc.push c
      else if c == ' ' then acc.push '+'
      else acc ++ String.join (((String.singleton c).toUTF8.toList).map encodeFormByte))
    ""

/-- `URLSearchParams.toString`: `k1=v1&k2=v2&...` with both sides encoded. -/
def searchParamsToString (ps : List (String × String)) : String :=
  String.intercalate "&" (ps.map (fun p => encodeFormComponent p.1 ++ "=" ++ encodeFormComponent p.2))

/-! ## Remote API client (`fetchAPI` in src/tools.ts) -/

/-- HTTP method of an outbound request. -/
inductive HttpMethod where
  | GET | POST | PUT | DELETE
deriving DecidableEq, Repr

/-- A `fetch` body.  In this program every body is `JSON.stringify` of an
object literal, i.e. a (nonempty) JSON text string; `nonText` stands for any
non-string body (Blob, stream, ...), which this program never constructs. -/
inductive BodyVal where
  | jsonDoc : JSValue → BodyVal
  | nonText : BodyVal

/-- `options.body && typeof options.body === 'string'`: a serialized JSON
document is a nonempty (hence truthy) string; a non-textual body fails the
`typeof` test. -/
def BodyVal.isTruthyString : BodyVal → Bool
  | .jsonDoc _ => true
  | .nonText => false

/-- `JSON.stringify v` used as a request body: the serialized document, or no
body at all when `v` is `undefined`. -/
def JSON_stringify (v : JSValue) : Option BodyVal :=
  (jsonNormalize v).map BodyVal.jsonDoc

/-- The `RequestInit` options record passed to `fetchAPI`. -/
structure RequestInit where
  method : HttpMethod := .GET
  headers : List (String × String) := []
  body : Option BodyVal := none

/-- Header-record assignment `r[k] = v`: overwrite in place if the key
exists, append otherwise (JS object assignment semantics). -/
def recordSet (r : List (String × String)) (k v : String) : List (String × String) :=
  if r.any (fun p => p.1 == k) then
    r.map (fun p => if p.1 == k then (k, v) else p)
  else
    r ++ [(k, v)]

/-- Object spread `{...base, ...extra}`: each entry of `extra` assigned over
`base` in order. -/
def recordSpread (base extra : List (String × String)) : List (String × String) :=
  extra.foldl (fun acc p => recordSet acc p.1 p.2) base

/-- Header lookup. -/
def recordGet (r : List (String × String)) (k : String) : Option String :=
  (r.find? (fun p => p.1 == k)).map (fun p => p.2)

/-- The API client configuration: base URL and bearer token
(`APIClientConfig` in src/tools.ts). -/
structure APIClientConfig where
  baseUrl : String
  token : String

/-- An outbound HTTP request as handed to `fetch`. -/
structure RemoteCall where
  url : String
  method : HttpMethod
  headers : List (String × String)
  body : Option BodyVal

/-- `fetchAPI` from src/tools.ts: prefixes the base URL, always attaches the
bearer `Authorization` header (caller headers spread over it), and sets the
JSON `Content-Type` exactly when the body is present and is a (truthy)
string. -/
def fetchAPI (config : APIClientConfig) (path : String) (options : RequestInit) : RemoteCall :=
  let url := config.baseUrl ++ path
  let headers0 := recordSpread [("Authorization", "Bearer " ++ config.token)] options.headers
  let headers :=
    match options.body with
    | some b => if b.isTruthyString then recordSet headers0 "Content-Type" "application/json" else headers0
    | none => headers0
  { url := url, method := options.method, headers := headers, body := options.body }

/-- The remote service's answer to one call: `ok` flag, status text and the
parsed JSON payload of `response.json()`. -/
structure HttpResponse where
  ok : Bool
  statusText : String
  json : JSValue

/-- The remote Fastidious service, modelled as an oracle from requests to
responses. -/
abbrev RemoteOracle := RemoteCall → HttpResponse

/-! ## Tool dispatch (`handleToolCall` in src/tools.ts)

Each `case` of the `switch` becomes one definition.  A handler returns the
outcome (`return` value or thrown error) together with the trace of outbound
remote calls it performed, in order. -/

/-- `ErrorCode.MethodNotFound` from the MCP SDK. -/
def methodNotFoundCode : Int := -32601

/-- `ErrorCode.InternalError` from the MCP SDK. -/
def internalErrorCode : Int := -32603

/-- An error thrown by a tool handler: either an SDK `McpError` (carrying a
protocol error code) or a plain `Error`. -/
inductive ToolErr where
  | mcpError : Int → String → ToolErr
  | error : String → ToolErr

/-- The `.message` of the thrown JS error object: `McpError`'s constructor
prefixes the code, a plain `Error` keeps its message verbatim. -/
def ToolErr.jsMessage : ToolErr → String
  | .mcpError code msg => "MCP error " ++ toString code ++ ": " ++ msg
  | .error msg => msg

/-- Result of one dispatch: the resolved value or the thrown error. -/
inductive ToolOutcome where
  | success : JSValue → ToolOutcome
  | failure : ToolErr → ToolOutcome

/-- `case 'create_note'`: POST `/api/pastes` with a `type: 'text'` body. -/
def handleCreateNote (remote : RemoteOracle) (config : APIClientConfig) (args : JSObj) :
    ToolOutcome × List RemoteCall :=
  let title := getField args "title"
  let content := getField args "content"
  let parentId := getField args "parentId"
  let fields := getField args "fields"
  let req := fetchAPI config "/api/pastes"
    { method := .POST
      body := JSON_stringify (.obj
        [("type", .str "text"), ("title", title), ("content", content),
         ("parentId", parentId), ("fields", fields)]) }
  let response := remote req
  (if !response.ok then
    .failure (.error ("Failed to create note: " ++ response.statusText))
  else
    .success response.json, [req])

/-- `case 'get_note'`: GET `/api/pastes/{id}`. -/
def handleGetNote (remote : RemoteOracle) (config : APIClientConfig) (args : JSObj) :
    ToolOutcome × List RemoteCall :=
  let id := getField args "id"
  let req := fetchAPI config ("/api/pastes/" ++ jsToString id) {}
  let response := remote req
  (if !response.ok then
    .failure (.error ("Failed to get note: " ++ response.statusText))
  else
    .success response.json, [req])

/-- `case 'update_note'`: `const { id, ...updates } = args`; PUT
`/api/pastes/{id}` with exactly the remaining fields as body. -/
def handleUpdateNote (remote : RemoteOracle) (config : APIClientConfig) (args : JSObj) :
    ToolOutcome × List RemoteCall :=
  let id := getField args "id"
  let updates := args.filter (fun p => p.1 != "id")
  let req := fetchAPI config ("/api/pastes/" ++ jsToString id)
    { method := .PUT, body := JSON_stringify (.obj updates) }
  let response := remote req
  (if !response.ok then
    .failure (.error ("Failed to update note: " ++ response.statusText))
  else
    .success response.json, [req])

/-- `case 'delete_note'`: DELETE `/api/pastes/{id}`; acknowledges with
`{success: true, id}`. -/
def handleDeleteNote (remote : RemoteOracle) (config : APIClientConfig) (args : JSObj) :
    ToolOutcome × List RemoteCall :=
  let id := getField args "id"
  let req := fetchAPI config ("/api/pastes/" ++ jsToString id) { method := .DELETE }
  let response := remote req
  (if !response.ok then
    .failure (.error ("Failed to delete note: " ++ response.statusText))
  else
    .success (.obj [("success", .bool true), ("id", id)]), [req])

/-- `case 'list_notes'`: GET `/api/pastes` with optional `parentId` filter;
filters collections out of `data.pastes`.  A non-array `data.pastes` raises
a `TypeError` at the `.filter` call, surfaced as a failure. -/
def handleListNotes (remote : RemoteOracle) (config : APIClientConfig) (args : JSObj) :
    ToolOutcome × List RemoteCall :=
  let parentId := getField args "parentId"
  let params := if parentId.truthy then [("parentId", jsToString parentId)] else []
  let queryString := searchParamsToString params
  let path := "/api/pastes" ++ (if queryString != "" then "?" ++ queryString else "")
  let req := fetchAPI config path {}
  let response := remote req
  (if !response.ok then
    .failure (.error ("Failed to list notes: " ++ response.statusText))
  else
    match jsArrayOf (getProp response.json "pastes") with
    | none => .failure (.error "TypeError: data.pastes.filter is not a function")
    | some pastes =>
      .success (.obj [("notes",
        .arr (pastes.filter (fun p => !(jsStrictEqStr (getProp p "type") "collection"))))]),
   [req])

/-- `case 'search_notes'`: GET `/api/pastes?q=...` with optional `parentId`;
filters collections out of `data.pastes`. -/
def handleSearchNotes (remote : RemoteOracle) (config : APIClientConfig) (args : JSObj) :
    ToolOutcome × List RemoteCall :=
  let query := getField args "query"
  let parentId := getField args "parentId"
  let params := [("q", jsToString query)]
    ++ (if parentId.truthy then [("parentId", jsToString parentId)] else [])
  let req := fetchAPI config ("/api/pastes?" ++ searchParamsToString params) {}
  let response := remote req
  (if !response.ok then
    .failure (.error ("Failed to search notes: " ++ response.statusText))
  else
    match jsArrayOf (getProp response.json "pastes") with
    | none => .failure (.error "TypeError: data.pastes.filter is not a function")
    | some pastes =>
      .success (.obj [("notes",
        .arr (pastes.filter (fun p => !(jsStrictEqStr (getProp p "type") "collection"))))]),
   [req])

/-- `case 'create_collection'`: POST `/api/pastes` with `type: 'collection'`
and the display/view/sort defaults from the source. -/
def handleCreateCollection (remote : RemoteOracle) (config : APIClientConfig) (args : JSObj) :
    ToolOutcome × List RemoteCall :=
  let title := getField args "title"
  let parentId := getField args "parentId"
  let fieldDefinitions := getField args "fieldDefinitions"
  let displayFields := getField args "displayFields"
  let req := fetchAPI config "/api/pastes"
    { method := .POST
      body := JSON_stringify (.obj
        [("type", .str "collection"), ("title", title), ("parentId", parentId),
         ("fieldDefinitions", fieldDefinitions),
         ("displayFields", jsOr displayFields (.arr [.str "title", .str "type", .str "createdAt"])),
         ("viewMode", .str "grid"),
         ("sortField", .str "createdAt"),
         ("sortDirection", .str "desc")]) }
  let response := remote req
  (if !response.ok then
    .failure (.error ("Failed to create collection: " ++ response.statusText))
  else
    .success response.json, [req])

/-- `case 'update_collection'`: `const { id, ...updates } = args`; PUT
`/api/pastes/{id}` with the remaining fields. -/
def handleUpdateCollection (remote : RemoteOracle) (config : APIClientConfig) (args : JSObj) :
    ToolOutcome × List RemoteCall :=
  let id := getField args "id"
  let updates := args.filter (fun p => p.1 != "id")
  let req := fetchAPI config ("/api/pastes/" ++ jsToString id)
    { method := .PUT, body := JSON_stringify (.obj updates) }
  let response := remote req
  (if !response.ok then
    .failure (.error ("Failed to update collection: " ++ response.statusText))
  else
    .success response.json, [req])

/-- `case 'get_collection'`: GET the item; when `includeChildren` is truthy
and the first call succeeded, additionally GET `/api/pastes?parentId={id}`. -/
def handleGetCollection (remote : RemoteOracle) (config : APIClientConfig) (args : JSObj) :
    ToolOutcome × List RemoteCall :=
  let id := getField args "id"
  let includeChildren := getField args "includeChildren"
  let req := fetchAPI config ("/api/pastes/" ++ jsToString id) {}
  let response := remote req
  if !response.ok then
    (.failure (.error ("Failed to get collection: " ++ response.statusText)), [req])
  else
    let collection := response.json
    if !includeChildren.truthy then
      (.success (.obj [("collection", collection)]), [req])
    else
      let childrenReq := fetchAPI config ("/api/pastes?parentId=" ++ jsToString id) {}
      let childrenResponse := remote childrenReq
      if !childrenResponse.ok then
        (.failure (.error ("Failed to get collection children: " ++ childrenResponse.statusText)),
         [req, childrenReq])
      else
        (.success (.obj [("collection", collection),
                         ("children", getProp childrenResponse.json "pastes")]),
         [req, childrenReq])

/-- `case 'list_collections'`: GET `/api/pastes` with optional `parentId`
filter; keeps only the collections in `data.pastes`. -/
def handleListCollections (remote : RemoteOracle) (config : APIClientConfig) (args : JSObj) :
    ToolOutcome × List RemoteCall :=
  let parentId := getField args "parentId"
  let params := if parentId.truthy then [("parentId", jsToString parentId)] else []
  let queryString := searchParamsToString params
  let path := "/api/pastes" ++ (if queryString != "" then "?" ++ queryString else "")
  let req := fetchAPI config path {}
  let response := remote req
  (if !response.ok then
    .failure (.error ("Failed to list collections: " ++ response.statusText))
  else
    match jsArrayOf (getProp response.json "pastes") with
    | none => .failure (.error "TypeError: data.pastes.filter is not a function")
    | some pastes =>
      .success (.obj [("collections",
        .arr (pastes.filter (fun p => jsStrictEqStr (getProp p "type") "collection")))]),
   [req])

/-- `case 'move_note'`: POST `/api/pastes/{id}/move` with body
`{targetParentId: targetParentId || null}`. -/
def handleMoveNote (remote : RemoteOracle) (config : APIClientConfig) (args : JSObj) :
    ToolOutcome × List RemoteCall :=
  let id := getField args "id"
  let targetParentId := getField args "targetParentId"
  let req := fetchAPI config ("/api/pastes/" ++ jsToString id ++ "/move")
    { method := .POST
      body := JSON_stringify (.obj [("targetParentId", jsOr targetParentId .null)]) }
  let response := remote req
  (if !response.ok then
    .failure (.error ("Failed to move note: " ++ response.statusText))
  else
    .success response.json, [req])

/-- The `switch (toolName)` of `handleToolCall`; the `default` case throws
`McpError(ErrorCode.MethodNotFound, ...)`. -/
def handleToolCall (remote : RemoteOracle) (config : APIClientConfig)
    (toolName : String) (args : JSObj) : ToolOutcome × List RemoteCall :=
  if toolName = "create_note" then handleCreateNote remote config args
  else if toolName = "get_note" then handleGetNote remote config args
  else if toolName = "update_note" then handleUpdateNote remote config args
  else if toolName = "delete_note" then handleDeleteNote remote config args
  else if toolName = "list_notes" then handleListNotes remote config args
  else if toolName = "search_notes" then handleSearchNotes remote config args
  else if toolName = "create_collection" then handleCreateCollection remote config args
  else if toolName = "update_collection" then handleUpdateCollection remote config args
  else if toolName = "get_collection" then handleGetCollection remote config args
  else if toolName = "list_collections" then handleListCollections remote config args
  else if toolName = "move_note" then handleMoveNote remote config args
  else (.failure (.mcpError methodNotFoundCode ("Unknown tool: " ++ toolName)), [])

/-- The names of the tools in the `TOOLS` catalog of src/tools.ts (their
declarative JSON schemas are advertisement data never consulted by
dispatch). -/
def TOOL_NAMES : List String :=
  ["create_note", "get_note", "update_note", "delete_note", "list_notes",
   "search_notes", "create_collection", "update_collection", "get_collection",
   "list_collections", "move_note"]

/-! ## The MCP server request handler (`createMCPServer` in src/tools.ts) -/

/-- An SDK `McpError` value as observed by the protocol caller. -/
structure McpErrorVal where
  code : Int
  message : String
deriving DecidableEq, Repr

/-- `new McpError(code, msg)`: the SDK constructor stores the code and
prefixes the message. -/
def mkMcpError (code : Int) (msg : String) : McpErrorVal :=
  { code := code, message := "MCP error " ++ toString code ++ ": " ++ msg }

/-- A successful `CallToolRequest` response: the handler wraps `result` as a
single pretty-printed text content item; we record the wrapped document. -/
structure CallToolResult where
  result : JSValue

/-- The `CallToolRequestSchema` handler installed by `createMCPServer`: it
runs `handleToolCall` and converts ANY thrown error — including the
dispatcher's own `McpError` — into `McpError(ErrorCode.InternalError,
error.message)`. -/
def callToolRequestHandler (remote : RemoteOracle) (config : APIClientConfig)
    (name : String) (args : JSObj) : Except McpErrorVal CallToolResult :=
  match (handleToolCall remote config name args).1 with
  | .success v => .ok { result := v }
  | .failure e => .error (mkMcpError internalErrorCode e.jsMessage)

/-! ## HTTP transport layer (hosted server, streamable + legacy SSE)

State transitions for the three token-gated/session endpoints of the hosted
server: `POST /sse` (streamable HTTP transport), `GET /sse` (legacy SSE
stream) and `POST /message` (legacy side channel).  Engines (transport +
connected MCP server pairs) are identified by the order of their
construction: `nextId` counts constructions and each new engine receives the
current counter value. -/

/-- One entry of the streamable-transport table: the engine bound to a
session id and the token it was created with. -/
structure StreamEntry where
  transportId : Nat
  token : String
deriving DecidableEq, Repr

/-- The server's shared mutable state: the streamable session table, the
legacy SSE session table (both in JS `Map` insertion order), and the engine
construction counter. -/
structure ServerState where
  streamable : List (String × StreamEntry)
  sse : List (String × Nat)
  nextId : Nat

/-- JS `Map.prototype.set`: update in place when the key exists (keeping its
position), append otherwise. -/
def mapSet {α : Type} (m : List (String × α)) (k : String) (v : α) : List (String × α) :=
  if m.any (fun p => p.1 == k) then
    m.map (fun p => if p.1 == k then (k, v) else p)
  else
    m ++ [(k, v)]

/-- JS `Map.prototype.get`. -/
def mapGet {α : Type} (m : List (String × α)) (k : String) : Option α :=
  (m.find? (fun p => p.1 == k)).map (fun p => p.2)

/-- JS `Map.prototype.has`. -/
def mapHas {α : Type} (m : List (String × α)) (k : String) : Bool :=
  m.any (fun p => p.1 == k)

/-- JS `Map.prototype.delete`. -/
def mapDelete {α : Type} (m : List (String × α)) (k : String) : List (String × α) :=
  m.filter (fun p => p.1 != k)

/-- JS `s.startsWith(pre)`: character-level prefix test. -/
def strStartsWith (s pre : String) : Bool :=
  pre.data.isPrefixOf s.data

/-- The token check shared by both `/sse` handlers:
`if (!token || !token.startsWith('fst_'))` — rejects a missing, empty, or
wrongly-prefixed token. -/
def tokenRejected : Option String → Bool
  | none => true
  | some t => t == "" || !(strStartsWith t "fst_")

/-- An HTTP response produced directly by the transport layer. -/
structure TransportResponse where
  status : Nat
  body : Option JSValue

/-- The 401 body sent by both `/sse` token gates. -/
def tokenErrorBody : JSValue :=
  .obj [("error", .str "Valid token required as query parameter")]

/-- Result of one `POST /sse` request. -/
structure PostSseResult where
  /-- The early JSON response, when the request was rejected at the gate. -/
  reject : Option TransportResponse
  /-- The engine (transport) the request body was delegated to, if any. -/
  handledBy : Option Nat
  /-- Whether a new engine (transport + server) was constructed. -/
  newEngine : Bool
  /-- The server state after the request. -/
  state : ServerState

/-- The session-creation path of `app.post('/sse')`: a new transport and
server are constructed (engine id `st.nextId`), the request is handled by
them, and the transport is stored under the session id the SDK assigned
during the handshake (`assigned`; `none` when the exchange was not an
initialization), provided that id is truthy and not already present. -/
def postSseCreate (st : ServerState) (tok : String) (assigned : Option String) : PostSseResult :=
  let transportId := st.nextId
  let streamable' := match assigned with
    | some aid =>
      if aid != "" && !(mapHas st.streamable aid) then
        mapSet st.streamable aid { transportId := transportId, token := tok }
      else st.streamable
    | none => st.streamable
  { reject := none, handledBy := some transportId, newEngine := true
    state := { st with streamable := streamable', nextId := st.nextId + 1 } }

/-- `app.post('/sse')`: token gate, then session lookup — a truthy
`mcp-session-id` header naming a stored session delegates to that stored
transport (no new engine); otherwise the creation path runs. -/
def postSse (st : ServerState) (token : Option String)
    (sessionIdHeader : Option String) (assigned : Option String) : PostSseResult :=
  if tokenRejected token then
    { reject := some { status := 401, body := some tokenErrorBody }
      handledBy := none, newEngine := false, state := st }
  else
    -- `if (sessionId && streamableTransports.has(sessionId))`
    let headerVal := match sessionIdHeader with
      | some sid => if sid != "" then some sid else none
      | none => none
    match headerVal with
    | some sid =>
      match mapGet st.streamable sid with
      | some entry =>
        { reject := none, handledBy := some entry.transportId, newEngine := false, state := st }
      | none => postSseCreate st (token.getD "") assigned
    | none => postSseCreate st (token.getD "") assigned

/-- Result of one `GET /sse` request. -/
structure GetSseResult where
  /-- The early JSON response, when the request was rejected at the gate. -/
  reject : Option TransportResponse
  /-- The id of the newly constructed engine, if one was built. -/
  newEngineId : Option Nat
  /-- The locally generated legacy session id, when a stream was opened. -/
  sessionId : Option String
  /-- The server state after the request. -/
  state : ServerState

/-- `app.get('/sse')`: token gate, then open a legacy SSE stream — a new
transport is built, registered in the legacy table under a locally generated
id (timestamp + random suffix, supplied here as `genSid`), and a new server
is connected; a failed `server.connect` deregisters the session again
(`connectOk`). -/
def getSse (st : ServerState) (token : Option String)
    (genSid : String) (connectOk : Bool) : GetSseResult :=
  if tokenRejected token then
    { reject := some { status := 401, body := some tokenErrorBody }
      newEngineId := none, sessionId := none, state := st }
  else
    let transportId := st.nextId
    let sse1 := mapSet st.sse genSid transportId
    if connectOk then
      { reject := none, newEngineId := some transportId, sessionId := some genSid
        state := { st with sse := sse1, nextId := st.nextId + 1 } }
    else
      { reject := none, newEngineId := some transportId, sessionId := some genSid
        state := { st with sse := mapDelete sse1 genSid, nextId := st.nextId + 1 } }

/-- Result of one `POST /message` request. -/
structure MessageResult where
  status : Nat
  body : Option JSValue
  /-- The legacy transport `handlePostMessage` was invoked on, if any. -/
  deliveredTo : Option Nat

/-- `app.post('/message')`: 400 when no legacy session is registered;
otherwise the message is handed to the most recently registered transport
(the last entry of the table); a throwing `handlePostMessage` yields a 500
(`handleOk`). -/
def postMessage (st : ServerState) (handleOk : Bool) : MessageResult :=
  match st.sse.getLast? with
  | none =>
    { status := 400, body := some (.obj [("error", .str "No active SSE connection")])
      deliveredTo := none }
  | some entry =>
    if handleOk then
      { status := 200, body := none, deliveredTo := some entry.2 }
    else
      { status := 500, body := some (.obj [("error", .str "Failed to handle message")])
        deliveredTo := some entry.2 }

/-! ## Helper lemmas -/

theorem handleToolCall_eq_move_note (remote : RemoteOracle) (config : APIClientConfig) (args : JSObj) :
    handleToolCall remote config "move_note" args = handleMoveNote remote config args := by
  rfl

theorem handleToolCall_eq_create_collection (remote : RemoteOracle) (config : APIClientConfig) (args : JSObj) :
    handleToolCall remote config "create_collection" args = handleCreateCollection remote config args := by
  rfl

theorem handleToolCall_eq_update_note (remote : RemoteOracle) (config : APIClientConfig) (args : JSObj) :
    handleToolCall remote config "update_note" args = handleUpdateNote remote config args := by
  rfl

theorem handleToolCall_eq_list_notes (remote : RemoteOracle) (config : APIClientConfig) (args : JSObj) :
    handleToolCall remote config "list_notes" args = handleListNotes remote config args := by
  rfl

theorem handleToolCall_eq_search_notes (remote : RemoteOracle) (config : APIClientConfig) (args : JSObj) :
    handleToolCall remote config "search_notes" args = handleSearchNotes remote config args := by
  rfl

theorem handleToolCall_eq_list_collections (remote : RemoteOracle) (config : APIClientConfig) (args : JSObj) :
    handleToolCall remote config "list_collections" args = handleListCollections remote config args := by
  rfl

theorem handleToolCall_unknown (remote : RemoteOracle) (config : APIClientConfig)
    (name : String) (args : JSObj) (h : name ∉ TOOL_NAMES) :
    handleToolCall remote config name args =
      (.failure (.mcpError methodNotFoundCode ("Unknown tool: " ++ name)), []) := by
  simp only [TOOL_NAMES, List.mem_cons, List.not_mem_nil, or_false, not_or] at h
  obtain ⟨h1, h2, h3, h4, h5, h6, h7, h8, h9, h10, h11⟩ := h
  simp [handleToolCall, h1, h2, h3, h4, h5, h6, h7, h8, h9, h10, h11]

theorem objGet_normObj_cons_ne (k1 : String) (v1 : JSValue) (fs : JSObj) (k : String)
    (h : k1 ≠ k) :
    objGet (jsonNormalizeObj ((k1, v1) :: fs)) k = objGet (jsonNormalizeObj fs) k := by
  cases hv : jsonNormalize v1 <;>
    simp [jsonNormalizeObj, hv, objGet, List.find?_cons, h]

theorem objGet_normObj_cons_eq (k : String) (v : JSValue) (fs : JSObj) (w : JSValue)
    (h : jsonNormalize v = some w) :
    objGet (jsonNormalizeObj ((k, v) :: fs)) k = some w := by
  simp [jsonNormalizeObj, h, objGet, List.find?_cons]

theorem jsFieldsIsJson_filter (p : String × JSValue → Bool) (fs : JSObj)
    (h : jsFieldsIsJson fs = true) : jsFieldsIsJson (fs.filter p) = true := by
  induction fs with
  | nil => rfl
  | cons q fs ih =>
    obtain ⟨k, v⟩ := q
    simp only [jsFieldsIsJson, Bool.and_eq_true] at h
    by_cases hp : p (k, v) = true
    · simp [List.filter_cons, hp, jsFieldsIsJson, h.1, ih h.2]
    · simp only [Bool.not_eq_true] at hp
      simp [List.filter_cons, hp, ih h.2]

theorem objGet_cons (k1 : String) (v1 : JSValue) (fs : JSObj) (k : String) :
    objGet ((k1, v1) :: fs) k = if k1 = k then some v1 else objGet fs k := by
  by_cases h : k1 = k
  · subst h; simp [objGet, List.find?_cons]
  · simp [objGet, List.find?_cons, h]

theorem objGet_filter_key_ne (fs : JSObj) (k : String) (h : k ≠ "id") :
    objGet (fs.filter (fun p => p.1 != "id")) k = objGet fs k := by
  induction fs with
  | nil => rfl
  | cons q fs ih =>
    obtain ⟨k1, v1⟩ := q
    by_cases h1 : k1 = "id"
    · subst h1
      simp [List.filter_cons, objGet_cons, Ne.symm h, ih]
    · have hcond : ((k1 : String) != "id") = true := bne_iff_ne.mpr h1
      simp [List.filter_cons, hcond, objGet_cons, ih]

theorem objGet_filter_id (fs : JSObj) :
    objGet (fs.filter (fun p => p.1 != "id")) "id" = none := by
  induction fs with
  | nil => rfl
  | cons q fs ih =>
    obtain ⟨k1, v1⟩ := q
    by_cases h1 : k1 = "id"
    · subst h1; simp [List.filter_cons, ih]
    · have hcond : ((k1 : String) != "id") = true := bne_iff_ne.mpr h1
      simp [List.filter_cons, hcond, objGet_cons, ih, h1]

/-- The properties of every outbound request this server builds: the bearer
token is attached, and the JSON content type is present exactly when a
(textual) body is. -/
def GoodHeaders (config : APIClientConfig) (call : RemoteCall) : Prop :=
  recordGet call.headers "Authorization" = some ("Bearer " ++ config.token)
  ∧ (recordGet call.headers "Content-Type" = some "application/json"
      ↔ ∃ d, call.body = some (.jsonDoc d))

theorem fetchAPI_goodHeaders (config : APIClientConfig) (path : String)
    (m : HttpMethod) (b : Option BodyVal)
    (hb : b = none ∨ ∃ d, b = some (.jsonDoc d)) :
    GoodHeaders config (fetchAPI config path { method := m, body := b }) := by
  rcases hb with hb | ⟨d, hb⟩ <;> subst hb <;>
    simp [GoodHeaders, fetchAPI, recordSpread, recordSet, recordGet,
      BodyVal.isTruthyString, List.find?]

theorem JSON_stringify_obj (fs : JSObj) :
    JSON_stringify (.obj fs) = some (.jsonDoc (.obj (jsonNormalizeObj fs))) := by
  rfl

/-! ## Test fixtures for witnesses -/

/-- A remote service that accepts every call and answers with a fixed JSON
payload. -/
def okOracle (payload : JSValue) : RemoteOracle :=
  fun _ => { ok := true, statusText := "OK", json := payload }

/-- A concrete client configuration. -/
def testConfig : APIClientConfig :=
  { baseUrl := "http://localhost:3000", token := "fst_token" }

/-! ## Claims about tool dispatch -/

/-- **C2**: for every `move_note` dispatch in which the `targetParentId`
argument is omitted (`undefined`) or `null`, the single outbound remote call
has body `{"targetParentId": null}` — the key is present with the explicit
value `null`, never absent. -/
theorem move_note_null_target_explicit (remote : RemoteOracle) (config : APIClientConfig)
    (args : JSObj)
    (h : getField args "targetParentId" = .undefined ∨ getField args "targetParentId" = .null) :
    ∃ req, (handleToolCall remote config "move_note" args).2 = [req] ∧
      req.body = some (.jsonDoc (.obj [("targetParentId", JSValue.null)])) := by
  rw [handleToolCall_eq_move_note]
  refine ⟨_, rfl, ?_⟩
  show JSON_stringify (.obj [("targetParentId", jsOr (getField args "targetParentId") .null)]) = _
  rcases h with h | h <;>
    rw [h] <;> rfl

/-- Witness for C2: `move_note` with `targetParentId` omitted. -/
theorem move_note_null_target_explicit_witness :
    ∃ req, (handleToolCall (okOracle .null) testConfig "move_note" [("id", .str "n1")]).2 = [req] ∧
      req.body = some (.jsonDoc (.obj [("targetParentId", JSValue.null)])) :=
  move_note_null_target_explicit (okOracle .null) testConfig [("id", .str "n1")] (Or.inl rfl)

/-- **C10**: for every `move_note` dispatch whose `targetParentId` argument
is falsy — in particular the empty string `""` — the outbound body carries
`targetParentId = null`, so an empty-string target never reaches the remote
service. -/
theorem move_note_falsy_target_coerced_to_null (remote : RemoteOracle)
    (config : APIClientConfig) (args : JSObj)
    (h : (getField args "targetParentId").truthy = false) :
    ∃ req, (handleToolCall remote config "move_note" args).2 = [req] ∧
      req.body = some (.jsonDoc (.obj [("targetParentId", JSValue.null)])) := by
  rw [handleToolCall_eq_move_note]
  refine ⟨_, rfl, ?_⟩
  show JSON_stringify (.obj [("targetParentId", jsOr (getField args "targetParentId") .null)]) = _
  rw [jsOr, h]
  rfl

/-- Witness for C10: `move_note` with `targetParentId = ""`. -/
theorem move_note_falsy_target_coerced_to_null_witness :
    ∃ req, (handleToolCall (okOracle .null) testConfig "move_note"
        [("id", .str "n1"), ("targetParentId", .str "")]).2 = [req] ∧
      req.body = some (.jsonDoc (.obj [("targetParentId", JSValue.null)])) :=
  move_note_falsy_target_coerced_to_null (okOracle .null) testConfig
    [("id", .str "n1"), ("targetParentId", .str "")] rfl

/-- **C4**: every `create_collection` dispatch sends a body in which
`viewMode = "grid"`, `sortField = "createdAt"`, `sortDirection = "desc"`
(hence in particular when they are not supplied), `displayFields` defaults
to `["title","type","createdAt"]` when not supplied, and a supplied (truthy,
JSON) `displayFields` value is sent as given. -/
theorem create_collection_defaults (remote : RemoteOracle) (config : APIClientConfig)
    (args : JSObj) :
    ∃ req doc, (handleToolCall remote config "create_collection" args).2 = [req] ∧
      req.body = some (.jsonDoc (.obj doc)) ∧
      objGet doc "viewMode" = some (.str "grid") ∧
      objGet doc "sortField" = some (.str "createdAt") ∧
      objGet doc "sortDirection" = some (.str "desc") ∧
      (getField args "displayFields" = .undefined →
        objGet doc "displayFields" = some (.arr [.str "title", .str "type", .str "createdAt"])) ∧
      (∀ v, getField args "displayFields" = v → v.truthy = true → v.isJson = true →
        objGet doc "displayFields" = some v) := by
  rw [handleToolCall_eq_create_collection]
  refine ⟨_, _, rfl, JSON_stringify_obj _, ?_, ?_, ?_, ?_, ?_⟩
  · rw [objGet_normObj_cons_ne _ _ _ _ (by decide), objGet_normObj_cons_ne _ _ _ _ (by decide),
      objGet_normObj_cons_ne _ _ _ _ (by decide), objGet_normObj_cons_ne _ _ _ _ (by decide),
      objGet_normObj_cons_ne _ _ _ _ (by decide),
      objGet_normObj_cons_eq "viewMode" (.str "grid") _ (.str "grid") rfl]
  · rw [objGet_normObj_cons_ne _ _ _ _ (by decide), objGet_normObj_cons_ne _ _ _ _ (by decide),
      objGet_normObj_cons_ne _ _ _ _ (by decide), objGet_normObj_cons_ne _ _ _ _ (by decide),
      objGet_normObj_cons_ne _ _ _ _ (by decide), objGet_normObj_cons_ne _ _ _ _ (by decide),
      objGet_normObj_cons_eq "sortField" (.str "createdAt") _ (.str "createdAt") rfl]
  · rw [objGet_normObj_cons_ne _ _ _ _ (by decide), objGet_normObj_cons_ne _ _ _ _ (by decide),
      objGet_normObj_cons_ne _ _ _ _ (by decide), objGet_normObj_cons_ne _ _ _ _ (by decide),
      objGet_normObj_cons_ne _ _ _ _ (by decide), objGet_normObj_cons_ne _ _ _ _ (by decide),
      objGet_normObj_cons_ne _ _ _ _ (by decide),
      objGet_normObj_cons_eq "sortDirection" (.str "desc") _ (.str "desc") rfl]
  · intro h
    rw [h]
    rw [objGet_normObj_cons_ne _ _ _ _ (by decide), objGet_normObj_cons_ne _ _ _ _ (by decide),
      objGet_normObj_cons_ne _ _ _ _ (by decide), objGet_normObj_cons_ne _ _ _ _ (by decide),
      objGet_normObj_cons_eq "displayFields"
        (jsOr JSValue.undefined (.arr [.str "title", .str "type", .str "createdAt"])) _
        (.arr [.str "title", .str "type", .str "createdAt"]) rfl]
  · intro v hv htr hjson
    rw [hv]
    rw [objGet_normObj_cons_ne _ _ _ _ (by decide), objGet_normObj_cons_ne _ _ _ _ (by decide),
      objGet_normObj_cons_ne _ _ _ _ (by decide), objGet_normObj_cons_ne _ _ _ _ (by decide)]
    have : jsOr v (.arr [.str "title", .str "type", .str "createdAt"]) = v := by
      rw [jsOr, htr]
      rfl
    rw [this, objGet_normObj_cons_eq _ _ _ _ (jsonNormalize_isJson v hjson)]

/-- Witness for C4: the spec scenario — a collection titled "Groceries" with
no explicit display fields. -/
theorem create_collection_defaults_witness :
    ∃ req doc, (handleToolCall (okOracle .null) testConfig "create_collection"
        [("title", .str "Groceries")]).2 = [req] ∧
      req.body = some (.jsonDoc (.obj doc)) ∧
      objGet doc "viewMode" = some (.str "grid") ∧
      objGet doc "sortField" = some (.str "createdAt") ∧
      objGet doc "sortDirection" = some (.str "desc") ∧
      (getField [("title", .str "Groceries")] "displayFields" = .undefined →
        objGet doc "displayFields" = some (.arr [.str "title", .str "type", .str "createdAt"])) ∧
      (∀ v, getField [("title", .str "Groceries")] "displayFields" = v → v.truthy = true →
        v.isJson = true → objGet doc "displayFields" = some v) :=
  create_collection_defaults (okOracle .null) testConfig [("title", .str "Groceries")]

/-- **C9**: every `update_note` dispatch makes exactly one PUT whose body
holds exactly the supplied non-`id` fields (for JSON-parsed arguments): a
field the caller did not supply never appears, and the `id` appears in the
URL path only, never among the body's keys. -/
theorem update_note_sends_only_supplied_fields (remote : RemoteOracle)
    (config : APIClientConfig) (args : JSObj) (hjson : jsFieldsIsJson args = true) :
    ∃ req, (handleToolCall remote config "update_note" args).2 = [req] ∧
      req.method = .PUT ∧
      req.url = config.baseUrl ++ ("/api/pastes/" ++ jsToString (getField args "id")) ∧
      req.body = some (.jsonDoc (.obj (args.filter (fun p => p.1 != "id")))) ∧
      (∀ k, k ≠ "id" → objGet (args.filter (fun p => p.1 != "id")) k = objGet args k) ∧
      objGet (args.filter (fun p => p.1 != "id")) "id" = none := by
  rw [handleToolCall_eq_update_note]
  refine ⟨_, rfl, rfl, rfl, ?_, fun k hk => objGet_filter_key_ne args k hk, objGet_filter_id args⟩
  show JSON_stringify (.obj (args.filter (fun p => p.1 != "id"))) = _
  rw [JSON_stringify_obj, jsonNormalizeObj_isJson _ (jsFieldsIsJson_filter _ args hjson)]

/-- Witness for C9: update of note "n1" supplying only a new title. -/
theorem update_note_sends_only_supplied_fields_witness :
    ∃ req, (handleToolCall (okOracle .null) testConfig "update_note"
        [("id", .str "n1"), ("title", .str "New title")]).2 = [req] ∧
      req.method = .PUT ∧
      req.url = testConfig.baseUrl ++ ("/api/pastes/" ++
        jsToString (getField [("id", .str "n1"), ("title", .str "New title")] "id")) ∧
      req.body = some (.jsonDoc (.obj ([("id", JSValue.str "n1"), ("title", JSValue.str "New title")].filter
        (fun p => p.1 != "id")))) ∧
      (∀ k, k ≠ "id" →
        objGet ([("id", JSValue.str "n1"), ("title", JSValue.str "New title")].filter
          (fun p => p.1 != "id")) k
          = objGet [("id", JSValue.str "n1"), ("title", JSValue.str "New title")] k) ∧
      objGet ([("id", JSValue.str "n1"), ("title", JSValue.str "New title")].filter
        (fun p => p.1 != "id")) "id" = none :=
  update_note_sends_only_supplied_fields (okOracle .null) testConfig
    [("id", .str "n1"), ("title", .str "New title")] (by decide)

/-- A note-typed item, as returned by the remote service. -/
def noteItem : JSValue := .obj [("id", .str "n1"), ("type", .str "text")]

/-- A collection-typed item, as returned by the remote service. -/
def collItem : JSValue := .obj [("id", .str "c1"), ("type", .str "collection")]

/-- A remote listing payload holding one note and one collection. -/
def listPayload : JSValue := .obj [("pastes", .arr [noteItem, collItem])]

/-- Shape of a successful listing outcome: the common
`ok`-check / `pastes`-extraction / filter pattern of `list_notes`,
`search_notes` and `list_collections`. -/
theorem listing_outcome_shape (r : HttpResponse) (e1 e2 : ToolErr) (key : String)
    (pred : JSValue → Bool) (v : JSValue)
    (hv : (if !r.ok then ToolOutcome.failure e1
           else
             match jsArrayOf (getProp r.json "pastes") with
             | none => ToolOutcome.failure e2
             | some pastes =>
               ToolOutcome.success (.obj [(key, .arr (pastes.filter pred))]))
          = ToolOutcome.success v) :
    ∃ pastes, jsArrayOf (getProp r.json "pastes") = some pastes ∧
      v = .obj [(key, .arr (pastes.filter pred))] := by
  split at hv
  · exact absurd hv (by simp)
  · split at hv
    · exact absurd hv (by simp)
    · rename_i pastes harr
      injection hv with h
      exact ⟨pastes, harr, h.symm⟩

/-- **C1**: whenever `list_notes` or `search_notes` succeeds, the returned
result is `{notes: ...}` where every item comes from the remote response's
`pastes` and has type strictly different from `"collection"`; whenever
`list_collections` succeeds, the result is `{collections: ...}` where every
item comes from the remote response and has type exactly `"collection"`. -/
theorem listings_filter_by_type (remote : RemoteOracle) (config : APIClientConfig)
    (args : JSObj) :
    (∀ v, (handleToolCall remote config "list_notes" args).1 = .success v →
      ∃ req pastes, (handleToolCall remote config "list_notes" args).2 = [req] ∧
        jsArrayOf (getProp (remote req).json "pastes") = some pastes ∧
        v = .obj [("notes",
          .arr (pastes.filter (fun p => !(jsStrictEqStr (getProp p "type") "collection"))))] ∧
        ∀ n ∈ pastes.filter (fun p => !(jsStrictEqStr (getProp p "type") "collection")),
          n ∈ pastes ∧ jsStrictEqStr (getProp n "type") "collection" = false)
    ∧ (∀ v, (handleToolCall remote config "search_notes" args).1 = .success v →
      ∃ req pastes, (handleToolCall remote config "search_notes" args).2 = [req] ∧
        jsArrayOf (getProp (remote req).json "pastes") = some pastes ∧
        v = .obj [("notes",
          .arr (pastes.filter (fun p => !(jsStrictEqStr (getProp p "type") "collection"))))] ∧
        ∀ n ∈ pastes.filter (fun p => !(jsStrictEqStr (getProp p "type") "collection")),
          n ∈ pastes ∧ jsStrictEqStr (getProp n "type") "collection" = false)
    ∧ (∀ v, (handleToolCall remote config "list_collections" args).1 = .success v →
      ∃ req pastes, (handleToolCall remote config "list_collections" args).2 = [req] ∧
        jsArrayOf (getProp (remote req).json "pastes") = some pastes ∧
        v = .obj [("collections",
          .arr (pastes.filter (fun p => jsStrictEqStr (getProp p "type") "collection")))] ∧
        ∀ c ∈ pastes.filter (fun p => jsStrictEqStr (getProp p "type") "collection"),
          c ∈ pastes ∧ jsStrictEqStr (getProp c "type") "collection" = true) := by
  refine ⟨?_, ?_, ?_⟩
  · intro v hv
    rw [handleToolCall_eq_list_notes] at hv ⊢
    obtain ⟨pastes, harr, hveq⟩ := listing_outcome_shape _ _ _ _ _ v hv
    refine ⟨_, pastes, rfl, harr, hveq, ?_⟩
    intro n hn
    have hmem := List.mem_filter.mp hn
    refine ⟨hmem.1, ?_⟩
    simpa using hmem.2
  · intro v hv
    rw [handleToolCall_eq_search_notes] at hv ⊢
    obtain ⟨pastes, harr, hveq⟩ := listing_outcome_shape _ _ _ _ _ v hv
    refine ⟨_, pastes, rfl, harr, hveq, ?_⟩
    intro n hn
    have hmem := List.mem_filter.mp hn
    refine ⟨hmem.1, ?_⟩
    simpa using hmem.2
  · intro v hv
    rw [handleToolCall_eq_list_collections] at hv ⊢
    obtain ⟨pastes, harr, hveq⟩ := listing_outcome_shape _ _ _ _ _ v hv
    refine ⟨_, pastes, rfl, harr, hveq, ?_⟩
    intro c hc
    have hmem := List.mem_filter.mp hc
    exact ⟨hmem.1, hmem.2⟩

/-- Witness for C1: `list_notes` over a remote response holding one note and
one collection succeeds with just the note. -/
theorem listings_filter_by_type_witness :
    ∃ req pastes,
      (handleToolCall (okOracle listPayload) testConfig "list_notes" []).2 = [req] ∧
      jsArrayOf (getProp ((okOracle listPayload) req).json "pastes") = some pastes ∧
      (JSValue.obj [("notes", .arr [noteItem])]) = .obj [("notes",
        .arr (pastes.filter (fun p => !(jsStrictEqStr (getProp p "type") "collection"))))] ∧
      ∀ n ∈ pastes.filter (fun p => !(jsStrictEqStr (getProp p "type") "collection")),
        n ∈ pastes ∧ jsStrictEqStr (getProp n "type") "collection" = false :=
  (listings_filter_by_type (okOracle listPayload) testConfig []).1
    (.obj [("notes", .arr [noteItem])]) rfl

/-- **C3 counterexample**: for the unknown tool name `"not_a_tool"` the
dispatcher throws a method-not-found `McpError`, but the error the protocol
caller observes from the server's `CallToolRequest` handler carries the
*internal error* code `-32603`, not the method-not-found code `-32601` — the
catch-all in `createMCPServer` reclassifies it on the way out. -/
theorem unknown_tool_observed_as_internal_error :
    ∃ e, callToolRequestHandler (okOracle .null) testConfig "not_a_tool" [] = .error e
      ∧ e.code = internalErrorCode ∧ e.code ≠ methodNotFoundCode := by
  refine ⟨mkMcpError internalErrorCode
    ("MCP error -32601: Unknown tool: not_a_tool"), ?_, rfl, by decide⟩
  show callToolRequestHandler (okOracle .null) testConfig "not_a_tool" [] = _
  rw [callToolRequestHandler,
    handleToolCall_unknown (okOracle .null) testConfig "not_a_tool" [] (by decide)]
  rfl

/-- **C3 (amended)**: for every tool name outside the catalog and every
argument object, dispatch itself fails with a method-not-found `McpError`,
but the server's request handler catches it and rethrows it as an
internal-error `McpError` (with the original message embedded), so the
protocol caller observes an internal-error classification. -/
theorem unknown_tool_method_not_found_then_reclassified (remote : RemoteOracle)
    (config : APIClientConfig) (name : String) (args : JSObj)
    (h : name ∉ TOOL_NAMES) :
    (handleToolCall remote config name args).1
        = .failure (.mcpError methodNotFoundCode ("Unknown tool: " ++ name))
    ∧ callToolRequestHandler remote config name args
        = .error (mkMcpError internalErrorCode
            ("MCP error " ++ toString methodNotFoundCode ++ ": " ++ ("Unknown tool: " ++ name))) := by
  constructor
  · rw [handleToolCall_unknown remote config name args h]
  · rw [callToolRequestHandler, handleToolCall_unknown remote config name args h]
    rfl

/-- Witness for the amended C3 at the concrete unknown name `"rename_note"`. -/
theorem unknown_tool_method_not_found_then_reclassified_witness :
    (handleToolCall (okOracle .null) testConfig "rename_note" []).1
        = .failure (.mcpError methodNotFoundCode ("Unknown tool: " ++ "rename_note"))
    ∧ callToolRequestHandler (okOracle .null) testConfig "rename_note" []
        = .error (mkMcpError internalErrorCode
            ("MCP error " ++ toString methodNotFoundCode ++ ": " ++ ("Unknown tool: " ++ "rename_note"))) :=
  unknown_tool_method_not_found_then_reclassified (okOracle .null) testConfig
    "rename_note" [] (by decide)

theorem handleCreateNote_goodHeaders (remote : RemoteOracle) (config : APIClientConfig)
    (args : JSObj) : ∀ call ∈ (handleCreateNote remote config args).2, GoodHeaders config call := by
  intro call hcall
  simp only [handleCreateNote, List.mem_singleton] at hcall
  subst hcall
  exact fetchAPI_goodHeaders config _ _ _ (Or.inr ⟨_, JSON_stringify_obj _⟩)

theorem handleGetNote_goodHeaders (remote : RemoteOracle) (config : APIClientConfig)
    (args : JSObj) : ∀ call ∈ (handleGetNote remote config args).2, GoodHeaders config call := by
  intro call hcall
  simp only [handleGetNote, List.mem_singleton] at hcall
  subst hcall
  exact fetchAPI_goodHeaders config _ _ _ (Or.inl rfl)

theorem handleUpdateNote_goodHeaders (remote : RemoteOracle) (config : APIClientConfig)
    (args : JSObj) : ∀ call ∈ (handleUpdateNote remote config args).2, GoodHeaders config call := by
  intro call hcall
  simp only [handleUpdateNote, List.mem_singleton] at hcall
  subst hcall
  exact fetchAPI_goodHeaders config _ _ _ (Or.inr ⟨_, JSON_stringify_obj _⟩)

theorem handleDeleteNote_goodHeaders (remote : RemoteOracle) (config : APIClientConfig)
    (args : JSObj) : ∀ call ∈ (handleDeleteNote remote config args).2, GoodHeaders config call := by
  intro call hcall
  simp only [handleDeleteNote, List.mem_singleton] at hcall
  subst hcall
  exact fetchAPI_goodHeaders config _ _ _ (Or.inl rfl)

theorem handleListNotes_goodHeaders (remote : RemoteOracle) (config : APIClientConfig)
    (args : JSObj) : ∀ call ∈ (handleListNotes remote config args).2, GoodHeaders config call := by
  intro call hcall
  simp only [handleListNotes, List.mem_singleton] at hcall
  subst hcall
  exact fetchAPI_goodHeaders config _ _ _ (Or.inl rfl)

theorem handleSearchNotes_goodHeaders (remote : RemoteOracle) (config : APIClientConfig)
    (args : JSObj) : ∀ call ∈ (handleSearchNotes remote config args).2, GoodHeaders config call := by
  intro call hcall
  simp only [handleSearchNotes, List.mem_singleton] at hcall
  subst hcall
  exact fetchAPI_goodHeaders config _ _ _ (Or.inl rfl)

theorem handleCreateCollection_goodHeaders (remote : RemoteOracle) (config : APIClientConfig)
    (args : JSObj) :
    ∀ call ∈ (handleCreateCollection remote config args).2, GoodHeaders config call := by
  intro call hcall
  simp only [handleCreateCollection, List.mem_singleton] at hcall
  subst hcall
  exact fetchAPI_goodHeaders config _ _ _ (Or.inr ⟨_, JSON_stringify_obj _⟩)

theorem handleUpdateCollection_goodHeaders (remote : RemoteOracle) (config : APIClientConfig)
    (args : JSObj) :
    ∀ call ∈ (handleUpdateCollection remote config args).2, GoodHeaders config call := by
  intro call hcall
  simp only [handleUpdateCollection, List.mem_singleton] at hcall
  subst hcall
  exact fetchAPI_goodHeaders config _ _ _ (Or.inr ⟨_, JSON_stringify_obj _⟩)

theorem handleGetCollection_goodHeaders (remote : RemoteOracle) (config : APIClientConfig)
    (args : JSObj) :
    ∀ call ∈ (handleGetCollection remote config args).2, GoodHeaders config call := by
  intro call hcall
  simp only [handleGetCollection] at hcall
  split at hcall
  · simp only [List.mem_singleton] at hcall
    subst hcall
    exact fetchAPI_goodHeaders config _ _ _ (Or.inl rfl)
  · split at hcall
    · simp only [List.mem_singleton] at hcall
      subst hcall
      exact fetchAPI_goodHeaders config _ _ _ (Or.inl rfl)
    · split at hcall <;>
      · simp only [List.mem_cons, List.not_mem_nil, or_false] at hcall
        rcases hcall with hcall | hcall <;> subst hcall <;>
          exact fetchAPI_goodHeaders config _ _ _ (Or.inl rfl)

theorem handleListCollections_goodHeaders (remote : RemoteOracle) (config : APIClientConfig)
    (args : JSObj) :
    ∀ call ∈ (handleListCollections remote config args).2, GoodHeaders config call := by
  intro call hcall
  simp only [handleListCollections, List.mem_singleton] at hcall
  subst hcall
  exact fetchAPI_goodHeaders config _ _ _ (Or.inl rfl)

theorem handleMoveNote_goodHeaders (remote : RemoteOracle) (config : APIClientConfig)
    (args : JSObj) : ∀ call ∈ (handleMoveNote remote config args).2, GoodHeaders config call := by
  intro call hcall
  simp only [handleMoveNote, List.mem_singleton] at hcall
  subst hcall
  exact fetchAPI_goodHeaders config _ _ _ (Or.inr ⟨_, JSON_stringify_obj _⟩)

set_option maxHeartbeats 1000000 in
/-- **C8**: every remote API call made by any tool dispatch carries
`Authorization: Bearer <token>` for the session's token, and carries
`Content-Type: application/json` if and only if a (textual, JSON-serialized)
body is present. -/
theorem outbound_calls_well_formed (remote : RemoteOracle) (config : APIClientConfig)
    (name : String) (args : JSObj) :
    ∀ call ∈ (handleToolCall remote config name args).2, GoodHeaders config call := by
  intro call hcall
  unfold handleToolCall at hcall
  split at hcall
  · exact handleCreateNote_goodHeaders remote config args call hcall
  split at hcall
  · exact handleGetNote_goodHeaders remote config args call hcall
  split at hcall
  · exact handleUpdateNote_goodHeaders remote config args call hcall
  split at hcall
  · exact handleDeleteNote_goodHeaders remote config args call hcall
  split at hcall
  · exact handleListNotes_goodHeaders remote config args call hcall
  split at hcall
  · exact handleSearchNotes_goodHeaders remote config args call hcall
  split at hcall
  · exact handleCreateCollection_goodHeaders remote config args call hcall
  split at hcall
  · exact handleUpdateCollection_goodHeaders remote config args call hcall
  split at hcall
  · exact handleGetCollection_goodHeaders remote config args call hcall
  split at hcall
  · exact handleListCollections_goodHeaders remote config args call hcall
  split at hcall
  · exact handleMoveNote_goodHeaders remote config args call hcall
  exact absurd hcall (by simp)

/-- Witness for C8: the single call of a concrete `get_note` dispatch is in
the trace and carries the bearer header with no JSON content type. -/
theorem outbound_calls_well_formed_witness :
    (fetchAPI testConfig "/api/pastes/n1"
        { method := HttpMethod.GET, headers := [], body := none })
      ∈ (handleToolCall (okOracle .null) testConfig "get_note" [("id", .str "n1")]).2
    ∧ GoodHeaders testConfig (fetchAPI testConfig "/api/pastes/n1"
        { method := HttpMethod.GET, headers := [], body := none }) := by
  have hmem : (fetchAPI testConfig "/api/pastes/n1"
      { method := HttpMethod.GET, headers := [], body := none })
      ∈ (handleToolCall (okOracle .null) testConfig "get_note" [("id", .str "n1")]).2 := by
    show _ ∈ [fetchAPI testConfig "/api/pastes/n1"
      { method := HttpMethod.GET, headers := [], body := none }]
    exact List.mem_singleton.mpr rfl
  exact ⟨hmem, outbound_calls_well_formed (okOracle .null) testConfig "get_note"
    [("id", .str "n1")] _ hmem⟩

/-! ## Claims about the transport layer -/

theorem mapHas_false_iff {α : Type} (m : List (String × α)) (k : String) :
    mapHas m k = false ↔ k ∉ m.map Prod.fst := by
  rw [← Bool.not_eq_true, mapHas, List.any_eq_true]
  constructor
  · intro h hk
    obtain ⟨p, hp, hpk⟩ := List.mem_map.mp hk
    exact h ⟨p, hp, by simp [hpk]⟩
  · intro h hex
    obtain ⟨p, hp, hpk⟩ := hex
    exact h (List.mem_map.mpr ⟨p, hp, by simpa using hpk⟩)

theorem mapSet_fresh {α : Type} (m : List (String × α)) (k : String) (v : α)
    (h : mapHas m k = false) : mapSet m k v = m ++ [(k, v)] := by
  rw [mapHas] at h
  simp [mapSet, h]

/-- **C5**: any `POST /sse` or `GET /sse` request whose `token` query
parameter is missing, empty, or lacking the `fst_` prefix is rejected with
status 401 and body `{error: "Valid token required as query parameter"}`,
with the server state unchanged — no session is created and no engine is
constructed (and hence no remote call can be attempted, since remote calls
only happen inside an engine's tool dispatch). -/
theorem token_gate_rejects_first (st : ServerState) (token : Option String)
    (sessionIdHeader assigned : Option String) (genSid : String) (connectOk : Bool)
    (h : token = none ∨ token = some "" ∨
      ∃ t, token = some t ∧ strStartsWith t "fst_" = false) :
    postSse st token sessionIdHeader assigned =
      { reject := some { status := 401, body := some tokenErrorBody }
        handledBy := none, newEngine := false, state := st }
    ∧ getSse st token genSid connectOk =
      { reject := some { status := 401, body := some tokenErrorBody }
        newEngineId := none, sessionId := none, state := st } := by
  have hrej : tokenRejected token = true := by
    rcases h with h | h | ⟨t, ht, hpre⟩
    · rw [h]; rfl
    · rw [h]; rfl
    · rw [ht]
      show (t == "" || !(strStartsWith t "fst_")) = true
      rw [hpre]
      simp
  exact ⟨by simp [postSse, hrej], by simp [getSse, hrej]⟩

/-- Witness for C5: a token without the `fst_` prefix is turned away by both
endpoints with no state change. -/
theorem token_gate_rejects_first_witness :
    postSse { streamable := [], sse := [], nextId := 0 } (some "tok_123") none none =
      { reject := some { status := 401, body := some tokenErrorBody }
        handledBy := none, newEngine := false
        state := { streamable := [], sse := [], nextId := 0 } }
    ∧ getSse { streamable := [], sse := [], nextId := 0 } (some "tok_123") "s1" true =
      { reject := some { status := 401, body := some tokenErrorBody }
        newEngineId := none, sessionId := none
        state := { streamable := [], sse := [], nextId := 0 } } :=
  token_gate_rejects_first { streamable := [], sse := [], nextId := 0 } (some "tok_123")
    none none "s1" true (Or.inr (Or.inr ⟨"tok_123", rfl, by decide⟩))

/-- Behaviour and invariant preservation of the streamable session-creation
path: one new engine with id `st.nextId`, table keys stay duplicate-free,
and all stored engine ids stay below the construction counter. -/
theorem postSseCreate_spec (st : ServerState) (tok : String) (assigned : Option String)
    (hkeys : (st.streamable.map Prod.fst).Nodup)
    (hids : ∀ e ∈ st.streamable, e.2.transportId < st.nextId) :
    (postSseCreate st tok assigned).newEngine = true
    ∧ (postSseCreate st tok assigned).handledBy = some st.nextId
    ∧ (postSseCreate st tok assigned).state.nextId = st.nextId + 1
    ∧ ((postSseCreate st tok assigned).state.streamable.map Prod.fst).Nodup
    ∧ ∀ e ∈ (postSseCreate st tok assigned).state.streamable,
        e.2.transportId < (postSseCreate st tok assigned).state.nextId := by
  refine ⟨rfl, rfl, rfl, ?_, ?_⟩
  · simp only [postSseCreate]
    cases assigned with
    | none => exact hkeys
    | some aid =>
      dsimp only
      by_cases hg : (aid != "" && !(mapHas st.streamable aid)) = true
      · have hhas : mapHas st.streamable aid = false := by
          have := (Bool.and_eq_true _ _).mp hg
          simpa using this.2
        rw [if_pos hg, mapSet_fresh _ _ _ hhas]
        rw [List.map_append, List.nodup_append]
        refine ⟨hkeys, by simp, ?_⟩
        intro x hx hx1
        simp only [List.map_cons, List.map_nil, List.mem_singleton] at hx1
        subst hx1
        exact (mapHas_false_iff _ _).mp hhas hx
      · rw [if_neg hg]
        exact hkeys
  · simp only [postSseCreate]
    cases assigned with
    | none =>
      intro e he
      exact Nat.lt_succ_of_lt (hids e he)
    | some aid =>
      dsimp only
      by_cases hg : (aid != "" && !(mapHas st.streamable aid)) = true
      · have hhas : mapHas st.streamable aid = false := by
          have := (Bool.and_eq_true _ _).mp hg
          simpa using this.2
        rw [if_pos hg, mapSet_fresh _ _ _ hhas]
        intro e he
        rcases List.mem_append.mp he with he | he
        · exact Nat.lt_succ_of_lt (hids e he)
        · simp only [List.mem_singleton] at he
          subst he
          exact Nat.lt_succ_self _
      · rw [if_neg hg]
        intro e he
        exact Nat.lt_succ_of_lt (hids e he)

/-- **C6**: the streamable transport binds at most one engine per session
identifier — a request carrying a known session id is delegated to exactly
the stored engine with no new engine construction and no state change; a
request carrying an unknown or absent (or empty, hence falsy) session id
runs the creation path, constructing one new engine whose id differs from
every stored engine's; and the session table keeps duplicate-free keys and
bounded engine ids. -/
theorem streamable_one_engine_per_session (st : ServerState) (token : String)
    (sessionIdHeader assigned : Option String)
    (htok : tokenRejected (some token) = false)
    (hkeys : (st.streamable.map Prod.fst).Nodup)
    (hids : ∀ e ∈ st.streamable, e.2.transportId < st.nextId) :
    (∀ sid entry, sessionIdHeader = some sid → sid ≠ "" →
        mapGet st.streamable sid = some entry →
        (postSse st (some token) sessionIdHeader assigned).handledBy = some entry.transportId
        ∧ (postSse st (some token) sessionIdHeader assigned).newEngine = false
        ∧ (postSse st (some token) sessionIdHeader assigned).state = st)
    ∧ ((∀ sid, sessionIdHeader = some sid → sid ≠ "" → mapGet st.streamable sid = none) →
        (postSse st (some token) sessionIdHeader assigned).newEngine = true
        ∧ (postSse st (some token) sessionIdHeader assigned).handledBy = some st.nextId
        ∧ ∀ e ∈ st.streamable, e.2.transportId ≠ st.nextId)
    ∧ ((postSse st (some token) sessionIdHeader assigned).state.streamable.map Prod.fst).Nodup
    ∧ ∀ e ∈ (postSse st (some token) sessionIdHeader assigned).state.streamable,
        e.2.transportId < (postSse st (some token) sessionIdHeader assigned).state.nextId := by
  have hcreate := postSseCreate_spec st ((some token).getD "") assigned hkeys hids
  refine ⟨?_, ?_, ?_, ?_⟩
  · intro sid entry h1 h2 h3
    subst h1
    have hsid : (sid != "") = true := bne_iff_ne.mpr h2
    simp [postSse, htok, hsid, h3]
  · intro hnone
    cases sessionIdHeader with
    | none =>
      simp only [postSse, htok, Bool.false_eq_true, if_false]
      exact ⟨hcreate.1, hcreate.2.1, fun e he => Nat.ne_of_lt (hids e he)⟩
    | some sid =>
      by_cases hsid : sid = ""
      · subst hsid
        simp only [postSse, htok, Bool.false_eq_true, if_false, bne_self_eq_false]
        exact ⟨hcreate.1, hcreate.2.1, fun e he => Nat.ne_of_lt (hids e he)⟩
      · have hsid' : (sid != "") = true := bne_iff_ne.mpr hsid
        have hget := hnone sid rfl hsid
        simp only [postSse, htok, Bool.false_eq_true, if_false, hsid', if_true, hget]
        exact ⟨hcreate.1, hcreate.2.1, fun e he => Nat.ne_of_lt (hids e he)⟩
  · cases sessionIdHeader with
    | none =>
      simp only [postSse, htok, Bool.false_eq_true, if_false]
      exact hcreate.2.2.2.1
    | some sid =>
      by_cases hsid : sid = ""
      · subst hsid
        simp only [postSse, htok, Bool.false_eq_true, if_false, bne_self_eq_false]
        exact hcreate.2.2.2.1
      · have hsid' : (sid != "") = true := bne_iff_ne.mpr hsid
        cases hget : mapGet st.streamable sid with
        | some entry =>
          simp only [postSse, htok, Bool.false_eq_true, if_false, hsid', if_true, hget]
          exact hkeys
        | none =>
          simp only [postSse, htok, Bool.false_eq_true, if_false, hsid', if_true, hget]
          exact hcreate.2.2.2.1
  · cases sessionIdHeader with
    | none =>
      simp only [postSse, htok, Bool.false_eq_true, if_false]
      exact hcreate.2.2.2.2
    | some sid =>
      by_cases hsid : sid = ""
      · subst hsid
        simp only [postSse, htok, Bool.false_eq_true, if_false, bne_self_eq_false]
        exact hcreate.2.2.2.2
      · have hsid' : (sid != "") = true := bne_iff_ne.mpr hsid
        cases hget : mapGet st.streamable sid with
        | some entry =>
          simp only [postSse, htok, Bool.false_eq_true, if_false, hsid', if_true, hget]
          exact hids
        | none =>
          simp only [postSse, htok, Bool.false_eq_true, if_false, hsid', if_true, hget]
          exact hcreate.2.2.2.2

/-- Witness for C6: on an empty table with a valid token and no session
header, one new engine (id 0) is constructed and stored under the assigned
id; and instantiating the reuse clause is vacuous. -/
theorem streamable_one_engine_per_session_witness :
    ((∀ sid entry, (none : Option String) = some sid → sid ≠ "" →
        mapGet ({ streamable := [], sse := [], nextId := 0 } : ServerState).streamable sid
          = some entry →
        (postSse { streamable := [], sse := [], nextId := 0 } (some "fst_tok") none
          (some "S1")).handledBy = some entry.transportId
        ∧ (postSse { streamable := [], sse := [], nextId := 0 } (some "fst_tok") none
            (some "S1")).newEngine = false
        ∧ (postSse { streamable := [], sse := [], nextId := 0 } (some "fst_tok") none
            (some "S1")).state = { streamable := [], sse := [], nextId := 0 })
    ∧ ((∀ sid, (none : Option String) = some sid → sid ≠ "" →
          mapGet ({ streamable := [], sse := [], nextId := 0 } : ServerState).streamable sid
            = none) →
        (postSse { streamable := [], sse := [], nextId := 0 } (some "fst_tok") none
          (some "S1")).newEngine = true
        ∧ (postSse { streamable := [], sse := [], nextId := 0 } (some "fst_tok") none
            (some "S1")).handledBy = some 0
        ∧ ∀ e ∈ ({ streamable := [], sse := [], nextId := 0 } : ServerState).streamable,
            e.2.transportId ≠ 0)
    ∧ (((postSse { streamable := [], sse := [], nextId := 0 } (some "fst_tok") none
        (some "S1")).state.streamable.map Prod.fst).Nodup)
    ∧ ∀ e ∈ (postSse { streamable := [], sse := [], nextId := 0 } (some "fst_tok") none
          (some "S1")).state.streamable,
        e.2.transportId < (postSse { streamable := [], sse := [], nextId := 0 }
          (some "fst_tok") none (some "S1")).state.nextId) :=
  streamable_one_engine_per_session { streamable := [], sse := [], nextId := 0 } "fst_tok"
    none (some "S1") (by decide) (by simp) (by simp)

/-- **C7**: `POST /message` answers 400 when the legacy table is empty;
otherwise it hands the message to the most recently registered session (the
last table entry).  In particular, after opening legacy streams A then B
(both still open), delivery goes to B's engine — which is distinct from A's
— and never to A. -/
theorem legacy_message_to_most_recent (st : ServerState) (handleOk : Bool)
    (tokA tokB sidA sidB : String)
    (htokA : tokenRejected (some tokA) = false) (htokB : tokenRejected (some tokB) = false)
    (hA : sidA ∉ st.sse.map Prod.fst) (hB : sidB ∉ st.sse.map Prod.fst) (hBA : sidB ≠ sidA) :
    (st.sse = [] → postMessage st handleOk =
      { status := 400, body := some (.obj [("error", .str "No active SSE connection")])
        deliveredTo := none })
    ∧ (∀ pre k tid, st.sse = pre ++ [(k, tid)] →
        (postMessage st handleOk).deliveredTo = some tid)
    ∧ ((postMessage (getSse (getSse st (some tokA) sidA true).state (some tokB) sidB
          true).state handleOk).deliveredTo = some (st.nextId + 1)
      ∧ (getSse st (some tokA) sidA true).newEngineId = some st.nextId
      ∧ (getSse (getSse st (some tokA) sidA true).state (some tokB) sidB true).newEngineId
          = some (st.nextId + 1)
      ∧ st.nextId + 1 ≠ st.nextId) := by
  refine ⟨?_, ?_, ?_⟩
  · intro h
    simp [postMessage, h]
  · intro pre k tid h
    rw [postMessage, h, List.getLast?_concat]
    cases handleOk <;> rfl
  · have hAset : mapSet st.sse sidA st.nextId = st.sse ++ [(sidA, st.nextId)] :=
      mapSet_fresh _ _ _ ((mapHas_false_iff _ _).mpr hA)
    have hst1 : (getSse st (some tokA) sidA true).state =
        { st with sse := st.sse ++ [(sidA, st.nextId)], nextId := st.nextId + 1 } := by
      simp [getSse, htokA, hAset]
    have hBnot : sidB ∉ (st.sse ++ [(sidA, st.nextId)]).map Prod.fst := by
      rw [List.map_append]
      intro hmem
      rcases List.mem_append.mp hmem with hmem | hmem
      · exact hB hmem
      · simp only [List.map_cons, List.map_nil, List.mem_singleton] at hmem
        exact hBA hmem
    have hBset : mapSet (st.sse ++ [(sidA, st.nextId)]) sidB (st.nextId + 1)
        = (st.sse ++ [(sidA, st.nextId)]) ++ [(sidB, st.nextId + 1)] :=
      mapSet_fresh _ _ _ ((mapHas_false_iff _ _).mpr hBnot)
    have hst2 : (getSse (getSse st (some tokA) sidA true).state (some tokB) sidB true).state =
        { streamable := st.streamable,
          sse := (st.sse ++ [(sidA, st.nextId)]) ++ [(sidB, st.nextId + 1)],
          nextId := st.nextId + 2 } := by
      rw [hst1]
      simp [getSse, htokB, hBset]
    refine ⟨?_, ?_, ?_, Nat.succ_ne_self _⟩
    · rw [hst2, postMessage]
      simp only [List.getLast?_concat]
      cases handleOk <;> rfl
    · simp [getSse, htokA]
    · rw [hst1]
      simp [getSse, htokB]

/-- Witness for C7: from the empty state, open legacy sessions "A" then "B"
with valid tokens; `/message` delivers to B's engine (id 1), not A's (id 0);
and the empty-table clause yields the 400 response. -/
theorem legacy_message_to_most_recent_witness :
    (({ streamable := [], sse := [], nextId := 0 } : ServerState).sse = [] →
      postMessage { streamable := [], sse := [], nextId := 0 } true =
      { status := 400, body := some (.obj [("error", .str "No active SSE connection")])
        deliveredTo := none })
    ∧ (∀ pre k tid,
        ({ streamable := [], sse := [], nextId := 0 } : ServerState).sse = pre ++ [(k, tid)] →
        (postMessage { streamable := [], sse := [], nextId := 0 } true).deliveredTo = some tid)
    ∧ ((postMessage (getSse (getSse { streamable := [], sse := [], nextId := 0 }
          (some "fst_a") "A" true).state (some "fst_b") "B" true).state true).deliveredTo
          = some (0 + 1)
      ∧ (getSse { streamable := [], sse := [], nextId := 0 } (some "fst_a") "A"
          true).newEngineId = some 0
      ∧ (getSse (getSse { streamable := [], sse := [], nextId := 0 } (some "fst_a") "A"
          true).state (some "fst_b") "B" true).newEngineId = some (0 + 1)
      ∧ 0 + 1 ≠ 0) :=
  legacy_message_to_most_recent { streamable := [], sse := [], nextId := 0 } true
    "fst_a" "fst_b" "A" "B" (by decide) (by decide) (by simp) (by simp) (by decide)
